import Mathlib

set_option maxRecDepth 8000

/-!
Verification of the ETL Process Manager (src/tools/etl_process_manager.py)
against its natural-language specification.

The manager's state is held in a relational store (tables `etl_jobs`,
`etl_job_steps`, `etl_job_logs`, `etl_scheduled_jobs`).  We embed the rows
touched by the operations under scrutiny as Lean structures, and each Python
method as a Lean function over those rows.  Wall-clock timestamps are
irrelevant to every claim except "was end_time set", so job rows carry an
`end_time_set` flag; durations used by the statistics aggregator are modelled
as rational julianday values.  The simulated per-step work
(`random.randint`/`time.sleep` inside `_execute_job`) is an oracle parameter
`work : Nat → StepOutcome`, and possible failures of the log-insert inside
`_add_job_log` are an oracle `logOk : Nat → Bool` indexed by log-write
attempt, mirroring the `try/except` that guards it.
-/

/-- One row of `etl_jobs` (the columns the claims are about).
`progress` is `progress_percentage` (REAL, nullable: the error-path final
update of `_execute_job` writes SQL NULL into it). -/
structure JobRow where
  job_name : String
  job_type : String
  status : String
  progress : Option ℚ
  records_processed : ℕ
  records_failed : ℕ
  error_message : Option String
  end_time_set : Bool
deriving DecidableEq

/-- One row of `etl_job_steps`.  `records_processed`/`records_failed`
default to 0 on insert and are only written by the success-path update. -/
structure StepRow where
  step_name : String
  step_type : String
  step_order : ℕ
  status : String
  records_processed : ℕ
  records_failed : ℕ
  end_time_set : Bool
deriving DecidableEq

/-- One row of `etl_job_logs`; `step_id` is modelled as the index of the
step the entry refers to (`none` for job-level entries). -/
structure LogEntry where
  step_id : Option ℕ
  log_level : String
  message : String
deriving DecidableEq

/-- Outcome of the (pluggable, here simulated) unit of work of one step:
either counts of processed/failed records, or a raised exception message. -/
inductive StepOutcome where
  | ok (processed failed : ℕ)
  | fail (msg : String)
deriving DecidableEq

/-- The four JOB_TYPE_* constants of `ETLProcessManager`. -/
def validJobTypes : List String := ["full_etl", "extract", "transform", "load"]

/-- The INSERT of `submit_job`: a fresh `etl_jobs` row.  The schema default
gives `progress_percentage = 0`; status is STATUS_QUEUED; `start_time`,
`created_at`, `last_updated` are set to now (not modelled). -/
def initialJob (name ty : String) : JobRow :=
  { job_name := name
    job_type := ty
    status := "queued"
    progress := some 0
    records_processed := 0
    records_failed := 0
    error_message := none
    end_time_set := false }

/-- What `submit_job` returns on success (the generated uuid is omitted). -/
structure SubmitResult where
  success : Bool
  job_name : String
  status : String
deriving DecidableEq

/-- `ETLProcessManager.submit_job`: generates a job id, INSERTs the queued
row, spawns the executor thread, and returns success.  The source performs
no validation of `job_type` whatsoever. -/
def submitJob (name ty : String) (jobs : List JobRow) : List JobRow × SubmitResult :=
  (jobs ++ [initialJob name ty],
   { success := true, job_name := name, status := "queued" })

/-- The INSERT into `etl_job_logs` attempted by `_add_job_log`; `ok = false`
models the store raising on the write. -/
def logInsert (ok : Bool) (logs : List LogEntry) (e : LogEntry) :
    Except String (List LogEntry) :=
  if ok then Except.ok (logs ++ [e]) else Except.error "log insert failed"

/-- `ETLProcessManager._add_job_log`: the insert is wrapped in
`try/except Exception`, so a failed write leaves the log table unchanged
and the method returns normally. -/
def addJobLog (ok : Bool) (logs : List LogEntry) (e : LogEntry) : List LogEntry :=
  match logInsert ok logs e with
  | Except.ok l => l
  | Except.error _ => logs

/-- `_add_job_log` viewed in the caller's exception monad: the body of the
method catches every exception of the insert, hence the caller always sees
a normal return. -/
def addJobLogRun (ok : Bool) (logs : List LogEntry) (e : LogEntry) :
    Except String (List LogEntry) :=
  match logInsert ok logs e with
  | Except.ok l => Except.ok l
  | Except.error _ => Except.ok logs

/-- `_execute_job` steps derived from the job type (name, type, order),
exactly the four-way dispatch at the top of the method; any other type
falls through with an empty list. -/
def deriveSteps (job_type : String) : List (String × String × ℕ) :=
  if job_type = "full_etl" then
    [("Extract Data", "extract", 1), ("Transform Data", "transform", 2),
     ("Load Data", "load", 3)]
  else if job_type = "extract" then [("Extract Data", "extract", 1)]
  else if job_type = "transform" then [("Transform Data", "transform", 1)]
  else if job_type = "load" then [("Load Data", "load", 1)]
  else []

/-- Store state seen by one executing worker: its job row, its step rows
(in insertion order), the log table, the sequence of successive values of
the job row (one snapshot per UPDATE of `etl_jobs`, oldest first), and the
count of log-insert attempts made so far (used to index the `logOk`
oracle). -/
structure ExecState where
  job : JobRow
  steps : List StepRow
  logs : List LogEntry
  jobTrace : List JobRow
  logCount : ℕ
deriving DecidableEq

/-- An UPDATE of the worker's `etl_jobs` row, recorded in the trace. -/
def writeJob (s : ExecState) (j : JobRow) : ExecState :=
  { s with job := j, jobTrace := s.jobTrace ++ [j] }

/-- A call to `_add_job_log` made by the worker. -/
def addLog (logOk : ℕ → Bool) (s : ExecState) (step : Option ℕ)
    (lvl msg : String) : ExecState :=
  { s with
    logs := addJobLog (logOk s.logCount) s.logs ⟨step, lvl, msg⟩
    logCount := s.logCount + 1 }

/-- UPDATE of the most recently inserted step row (the source updates by
`step_id`, which is always the row inserted at the top of the current loop
iteration). -/
def setLast (l : List StepRow) (r : StepRow) : List StepRow :=
  l.dropLast ++ [r]

/-- The step loop of `_execute_job`.  `n` is `len(steps)`, `i` the 0-based
`step_index`, `totP`/`totF` the running totals.  Per iteration: INSERT the
step row as running, log the start, run the work; on success UPDATE the job
row with `progress_percentage = ((step_index + 1) / len(steps)) * 100` and
accumulated record counts, UPDATE the step row to completed with its
counts, log completion, and recurse; on failure UPDATE the step row to
error (its record counts keep their 0 defaults), log the error, and return
with the break flag set. -/
def execSteps (work : ℕ → StepOutcome) (logOk : ℕ → Bool) (n : ℕ) :
    List (String × String × ℕ) → ℕ → ℕ → ℕ → ExecState →
    ExecState × ℕ × ℕ × Bool
  | [], _, totP, totF, s => (s, totP, totF, false)
  | (nm, st, ord) :: rest, i, totP, totF, s =>
    let s1 : ExecState :=
      { s with steps := s.steps ++ [⟨nm, st, ord, "running", 0, 0, false⟩] }
    let s2 := addLog logOk s1 (some i) "INFO"
      ("Started step " ++ toString ord ++ ": " ++ nm)
    match work i with
    | StepOutcome.ok rp rf =>
      let s3 := writeJob s2
        { s2.job with
          progress := some ((((i : ℚ) + 1) / (n : ℚ)) * 100)
          records_processed := s2.job.records_processed + rp
          records_failed := s2.job.records_failed + rf }
      let s4 : ExecState :=
        { s3 with steps := setLast s3.steps ⟨nm, st, ord, "completed", rp, rf, true⟩ }
      let s5 := addLog logOk s4 (some i) "INFO"
        ("Completed step " ++ toString ord ++ ": " ++ nm)
      execSteps work logOk n rest (i + 1) (totP + rp) (totF + rf) s5
    | StepOutcome.fail msg =>
      let s3 : ExecState :=
        { s2 with steps := setLast s2.steps ⟨nm, st, ord, "error", 0, 0, true⟩ }
      let s4 := addLog logOk s3 (some i) "ERROR"
        ("Error in step " ++ toString ord ++ " (" ++ nm ++ "): " ++ msg)
      (s4, totP, totF, true)

/-- Result of one worker run: final job row, step rows, log table, and the
full sequence of job-row values (initial insert first). -/
structure ExecResult where
  job : JobRow
  steps : List StepRow
  logs : List LogEntry
  jobTrace : List JobRow
deriving DecidableEq

/-- `ETLProcessManager._execute_job` on the normal path (the job row
exists and the store accepts the job/step writes; only the step work and
the log inserts may fail).  Order as in the source: UPDATE status to
running; log the start; derive steps; run the loop; final UPDATE with
status error/completed, `progress_percentage` NULL on error and 100
otherwise, the accumulated totals, and `end_time`; log the summary. -/
def executeJob (name ty : String) (work : ℕ → StepOutcome)
    (logOk : ℕ → Bool) : ExecResult :=
  let j0 := initialJob name ty
  let s0 : ExecState :=
    { job := j0, steps := [], logs := [], jobTrace := [j0], logCount := 0 }
  let s1 := writeJob s0 { s0.job with status := "running" }
  let s2 := addLog logOk s1 none "INFO" ("Started job execution: " ++ name)
  let specs := deriveSteps ty
  match execSteps work logOk specs.length specs 0 0 0 s2 with
  | (s3, totP, totF, err) =>
    let s4 := writeJob s3
      { s3.job with
        status := if err then "error" else "completed"
        progress := if err then none else some 100
        records_processed := totP
        records_failed := totF
        end_time_set := true }
    let s5 := addLog logOk s4 none (if err then "ERROR" else "INFO")
      ("Job completed with status " ++ (if err then "error" else "completed"))
    { job := s5.job, steps := s5.steps, logs := s5.logs, jobTrace := s5.jobTrace }

/-- `ETLProcessManager.update_job_status`: if the job exists, UPDATE its
status to the requested value (no check against the current status); when
the requested status is "cancelled", additionally append a WARNING log via
`_add_job_log` and set `end_time` if it is still NULL.  Returns the job
row after the call, the log table, and the method's boolean result. -/
def updateJobStatus (logOk : Bool) (job : Option JobRow) (logs : List LogEntry)
    (status : String) : Option JobRow × List LogEntry × Bool :=
  match job with
  | none => (none, logs, false)
  | some j =>
    let j1 : JobRow := { j with status := status }
    let logs1 :=
      if status = "cancelled" then
        addJobLog logOk logs ⟨none, "WARNING", "Job cancelled by user"⟩
      else logs
    let j2 : JobRow :=
      if status = "cancelled" ∧ j1.end_time_set = false then
        { j1 with end_time_set := true }
      else j1
    (some j2, logs1, true)

/-- The status transitions the specification allows:
queued → running → (completed | error), and (queued | running) → cancelled. -/
def allowedTransition (a b : String) : Bool :=
  (a, b) ∈ [("queued", "running"), ("running", "completed"),
            ("running", "error"), ("queued", "cancelled"),
            ("running", "cancelled")]

/-- The terminal job statuses. -/
def isTerminal (s : String) : Bool := s ∈ ["completed", "error", "cancelled"]

/-- Drop elements equal to the previous kept element (helper of
`collapseAdj`). -/
def collapseFrom (a : String) : List String → List String
  | [] => []
  | b :: rest => if b = a then collapseFrom a rest else b :: collapseFrom b rest

/-- Collapse adjacent duplicates, turning a sequence of row snapshots into
the sequence of distinct statuses the job moved through. -/
def collapseAdj : List String → List String
  | [] => []
  | a :: rest => a :: collapseFrom a rest

/-- One row of `etl_scheduled_jobs` as read by `_process_scheduled_jobs`. -/
structure ScheduledJob where
  process_id : String
  process_name : String
  job_type : String
  source_system : Option ℕ
  target_system : String
  cron_schedule : String
  is_active : Bool
deriving DecidableEq

/-- A call to `submit_job` made by the scheduler loop. -/
structure Submission where
  job_name : String
  job_type : String
  source_id : Option ℕ
  created_by : String
deriving DecidableEq

/-- Modelling the external croniter library for the every-minute expression
`"* * * * *"`: `croniter(expr, base).get_next(datetime)` returns the first
occurrence strictly after the base time, i.e. the next minute boundary.
Times are in seconds. -/
def cronNextEveryMinute (t : ℕ) : ℕ := (t / 60 + 1) * 60

/-- `croniter(cron_schedule, current_time).get_next(datetime)` as used by
`_process_scheduled_jobs`; only the every-minute expression (the one the
claims quantify over) is given a semantics. -/
def cronNext (expr : String) (t : ℕ) : Option ℕ :=
  if expr = "* * * * *" then some (cronNextEveryMinute t) else none

/-- One tick of `ETLProcessManager._process_scheduled_jobs`: read the
active rows of `etl_scheduled_jobs`; for each, compute
`next_run = croniter(cron_schedule, current_time).get_next(datetime)` and,
if `next_run <= current_time`, call `submit_job` with
`job_name = "Scheduled: <process_name>"` and
`created_by = "scheduler:<process_id>"`.  Returns the submissions made. -/
def processScheduledJobs (schedules : List ScheduledJob) (now : ℕ) :
    List Submission :=
  (schedules.filter (fun j => j.is_active)).filterMap fun job =>
    match cronNext job.cron_schedule now with
    | some next_run =>
      if next_run ≤ now then
        some { job_name := "Scheduled: " ++ job.process_name
               job_type := job.job_type
               source_id := job.source_system
               created_by := "scheduler:" ++ job.process_id }
      else none
    | none => none

/-- One row of `etl_jobs` as read by `get_job_statistics`; `start_time`
and `end_time` are julianday values (fractional days). -/
structure DbJob where
  status : String
  job_type : String
  records_processed : ℕ
  records_failed : ℕ
  start_time : Option ℚ
  end_time : Option ℚ
deriving DecidableEq

/-- The `date_filter` string `get_job_statistics` builds for each
`time_period` — note every non-empty variant begins with its own WHERE
keyword. -/
def dateFilter (tp : Option String) : String :=
  if tp = some "today" then "WHERE DATE(created_at) = DATE(\x27now\x27)"
  else if tp = some "week" then
    "WHERE DATE(created_at) >= DATE(\x27now\x27, \x27-7 days\x27)"
  else if tp = some "month" then
    "WHERE DATE(created_at) >= DATE(\x27now\x27, \x27-30 days\x27)"
  else ""

/-- The average-processing-time query of `get_job_statistics`: the
`date_filter` is appended after a query that already has a WHERE clause. -/
def avgDurationQuery (tp : Option String) : String :=
  "SELECT AVG(JULIANDAY(end_time) - JULIANDAY(start_time)) * 86400 as avg_seconds FROM etl_jobs WHERE status = ? AND end_time IS NOT NULL "
    ++ dateFilter tp

/-- Does the character list start with the keyword WHERE? -/
def hasWhereHead : List Char → Bool
  | 'W' :: 'H' :: 'E' :: 'R' :: 'E' :: _ => true
  | _ => false

/-- Occurrences of WHERE in a character list. -/
def countWhereChars : List Char → ℕ
  | [] => 0
  | c :: rest => (if hasWhereHead (c :: rest) then 1 else 0) + countWhereChars rest

/-- Number of WHERE keywords in a query text. -/
def countWhere (s : String) : ℕ := countWhereChars s.toList

/-- Minimal model of the store's SQL parser for the queries at hand (none
of which contain subqueries or the word WHERE inside a literal): a SELECT
over `etl_jobs` is accepted only if it has at most one WHERE clause;
sqlite raises a syntax error near the second WHERE otherwise. -/
def sqlOk (s : String) : Bool := countWhere s ≤ 1

/-- `JULIANDAY(end_time) - JULIANDAY(start_time)` for one row: NULL when
either timestamp is NULL (and then ignored by AVG). -/
def timeDiff (j : DbJob) : Option ℚ :=
  match j.start_time, j.end_time with
  | some s, some e => some (e - s)
  | _, _ => none

/-- The rows and values the average-processing-time query aggregates over:
`WHERE status = 'completed' AND end_time IS NOT NULL`, with NULL
differences (missing start_time) skipped by AVG. -/
def completedDurations (rows : List DbJob) : List ℚ :=
  (rows.filter (fun j => j.status == "completed" && j.end_time.isSome)).filterMap
    timeDiff

/-- SQL AVG over a list, with the `or 0` the source applies to a NULL
aggregate. -/
def avgOrZero (l : List ℚ) : ℚ :=
  if l.length = 0 then 0 else l.sum / (l.length : ℚ)

/-- `SELECT status, COUNT(*) ... GROUP BY status`. -/
def statusCounts (rows : List DbJob) : List (String × ℕ) :=
  ((rows.map (fun j => j.status)).dedup).map
    (fun st => (st, (rows.filter (fun j => j.status == st)).length))

/-- `SELECT job_type, COUNT(*) ... GROUP BY job_type`. -/
def jobTypeCounts (rows : List DbJob) : List (String × ℕ) :=
  ((rows.map (fun j => j.job_type)).dedup).map
    (fun ty => (ty, (rows.filter (fun j => j.job_type == ty)).length))

/-- The statistics object `get_job_statistics` assembles. -/
structure Stats where
  time_period : String
  total_jobs : ℕ
  status_counts : List (String × ℕ)
  job_type_counts : List (String × ℕ)
  avg_processing_time_seconds : ℚ
  total_records_processed : ℕ
  total_records_failed : ℕ
  avg_records_processed : ℚ
  failure_rate : ℚ
  success_rate : ℚ
deriving DecidableEq

/-- `ETLProcessManager.get_job_statistics` over the `etl_jobs` rows.  The
status-count query runs first (its only WHERE is the date filter itself);
the second query, `avgDurationQuery`, already contains a WHERE clause, so
for the filtered periods the appended filter makes it malformed and the
store raises — the method's `except` turns that into a failure result,
modelled as `Except.error`.  Otherwise the remaining aggregates are
computed and the stats object returned. -/
def getJobStatistics (tp : Option String) (rows : List DbJob) :
    Except String Stats :=
  if sqlOk (avgDurationQuery tp) then
    let sc := statusCounts rows
    let totalProcessed := (rows.map (fun j => j.records_processed)).sum
    let totalFailed := (rows.map (fun j => j.records_failed)).sum
    Except.ok
      { time_period := tp.getD "all"
        total_jobs := (sc.map (fun p => p.2)).sum
        status_counts := sc
        job_type_counts := jobTypeCounts rows
        avg_processing_time_seconds := avgOrZero (completedDurations rows) * 86400
        total_records_processed := totalProcessed
        total_records_failed := totalFailed
        avg_records_processed :=
          avgOrZero ((rows.filter (fun j => decide (0 < j.records_processed))).map
            (fun j => (j.records_processed : ℚ)))
        failure_rate :=
          if 0 < totalProcessed then
            (totalFailed : ℚ) / (totalProcessed : ℚ) * 100
          else 0
        success_rate :=
          if 0 < totalProcessed then
            ((totalProcessed : ℚ) - (totalFailed : ℚ)) / (totalProcessed : ℚ) * 100
          else 0 }
  else Except.error "near WHERE: syntax error"

/-- The average-duration statistic as the specification words it: averaged
over exactly the jobs with both `start_time` and `end_time` set,
regardless of status (seconds, i.e. julianday difference times 86400). -/
def specAvgDuration (rows : List DbJob) : ℚ :=
  avgOrZero (rows.filterMap timeDiff) * 86400

/-- A completed `etl_jobs` row with both timestamps set (julianday 0 → 1,
i.e. one day = 86400 seconds of processing). -/
def sampleRowCompleted : DbJob :=
  { status := "completed", job_type := "full_etl", records_processed := 10,
    records_failed := 0, start_time := some 0, end_time := some 1 }

/-- An errored `etl_jobs` row that nevertheless has both timestamps set
(three days of processing). -/
def sampleRowError : DbJob :=
  { status := "error", job_type := "full_etl", records_processed := 5,
    records_failed := 1, start_time := some 0, end_time := some 3 }

/-- The statistics object `get_job_statistics` produces for the store
containing only `sampleRowCompleted` and no time filter. -/
def sampleStats : Stats :=
  { time_period := "all", total_jobs := 1, status_counts := [("completed", 1)],
    job_type_counts := [("full_etl", 1)], avg_processing_time_seconds := 86400,
    total_records_processed := 10, total_records_failed := 0,
    avg_records_processed := 10, failure_rate := 0, success_rate := 100 }

/-- An active every-minute schedule row. -/
def sampleSchedule : ScheduledJob :=
  { process_id := "p1", process_name := "Nightly sync", job_type := "full_etl",
    source_system := none, target_system := "customer360",
    cron_schedule := "* * * * *", is_active := true }

/-- A step-work oracle whose first step succeeds with 7 processed /
1 failed and whose second step raises. -/
def sampleWorkFailSecond : ℕ → StepOutcome :=
  fun i => if i = 0 then StepOutcome.ok 7 1 else StepOutcome.fail "x"

/-- A job type outside the four constants derives no steps. -/
lemma deriveSteps_of_unknown (ty : String) (h : ty ∉ validJobTypes) :
    deriveSteps ty = [] := by
  simp [validJobTypes] at h
  simp [deriveSteps, h.1, h.2.1, h.2.2.1, h.2.2.2]

/-- `deriveSteps` produces the full pipeline, a single step of order 1, or
nothing. -/
lemma deriveSteps_cases (ty : String) :
    deriveSteps ty =
      [("Extract Data", "extract", 1), ("Transform Data", "transform", 2),
       ("Load Data", "load", 3)] ∨
    (∃ nm st, deriveSteps ty = [(nm, st, 1)]) ∨
    deriveSteps ty = [] := by
  unfold deriveSteps
  split_ifs
  · exact Or.inl rfl
  · exact Or.inr (Or.inl ⟨"Extract Data", "extract", rfl⟩)
  · exact Or.inr (Or.inl ⟨"Transform Data", "transform", rfl⟩)
  · exact Or.inr (Or.inl ⟨"Load Data", "load", rfl⟩)
  · exact Or.inr (Or.inr rfl)

/-- Worker run when the job type derives no steps. -/
lemma exec_shape_empty (name ty : String) (work : ℕ → StepOutcome)
    (logOk : ℕ → Bool) (h : deriveSteps ty = []) :
    (executeJob name ty work logOk).job =
      { job_name := name, job_type := ty, status := "completed",
        progress := some 100, records_processed := 0, records_failed := 0,
        error_message := none, end_time_set := true } ∧
    (executeJob name ty work logOk).steps = [] ∧
    (executeJob name ty work logOk).jobTrace =
      [{ job_name := name, job_type := ty, status := "queued",
         progress := some 0, records_processed := 0, records_failed := 0,
         error_message := none, end_time_set := false },
       { job_name := name, job_type := ty, status := "running",
         progress := some 0, records_processed := 0, records_failed := 0,
         error_message := none, end_time_set := false },
       { job_name := name, job_type := ty, status := "completed",
         progress := some 100, records_processed := 0, records_failed := 0,
         error_message := none, end_time_set := true }] := by
  refine ⟨?_, ?_, ?_⟩ <;>
    simp [executeJob, h, execSteps, writeJob, addLog, initialJob]

/-- Worker run for a single-step job type whose step succeeds. -/
lemma exec_shape_single_ok (name ty nm st : String) (work : ℕ → StepOutcome)
    (logOk : ℕ → Bool) (p f : ℕ) (h : deriveSteps ty = [(nm, st, 1)])
    (h0 : work 0 = StepOutcome.ok p f) :
    (executeJob name ty work logOk).job =
      { job_name := name, job_type := ty, status := "completed",
        progress := some 100, records_processed := p, records_failed := f,
        error_message := none, end_time_set := true } ∧
    (executeJob name ty work logOk).steps =
      [{ step_name := nm, step_type := st, step_order := 1,
         status := "completed", records_processed := p, records_failed := f,
         end_time_set := true }] ∧
    (executeJob name ty work logOk).jobTrace =
      [{ job_name := name, job_type := ty, status := "queued",
         progress := some 0, records_processed := 0, records_failed := 0,
         error_message := none, end_time_set := false },
       { job_name := name, job_type := ty, status := "running",
         progress := some 0, records_processed := 0, records_failed := 0,
         error_message := none, end_time_set := false },
       { job_name := name, job_type := ty, status := "running",
         progress := some 100, records_processed := p, records_failed := f,
         error_message := none, end_time_set := false },
       { job_name := name, job_type := ty, status := "completed",
         progress := some 100, records_processed := p, records_failed := f,
         error_message := none, end_time_set := true }] := by
  refine ⟨?_, ?_, ?_⟩ <;>
    norm_num [executeJob, h, h0, execSteps, writeJob, addLog, setLast, initialJob]

/-- Worker run for a single-step job type whose step raises. -/
lemma exec_shape_single_fail (name ty nm st : String) (work : ℕ → StepOutcome)
    (logOk : ℕ → Bool) (msg : String) (h : deriveSteps ty = [(nm, st, 1)])
    (h0 : work 0 = StepOutcome.fail msg) :
    (executeJob name ty work logOk).job =
      { job_name := name, job_type := ty, status := "error",
        progress := none, records_processed := 0, records_failed := 0,
        error_message := none, end_time_set := true } ∧
    (executeJob name ty work logOk).steps =
      [{ step_name := nm, step_type := st, step_order := 1,
         status := "error", records_processed := 0, records_failed := 0,
         end_time_set := true }] ∧
    (executeJob name ty work logOk).jobTrace =
      [{ job_name := name, job_type := ty, status := "queued",
         progress := some 0, records_processed := 0, records_failed := 0,
         error_message := none, end_time_set := false },
       { job_name := name, job_type := ty, status := "running",
         progress := some 0, records_processed := 0, records_failed := 0,
         error_message := none, end_time_set := false },
       { job_name := name, job_type := ty, status := "error",
         progress := none, records_processed := 0, records_failed := 0,
         error_message := none, end_time_set := true }] := by
  refine ⟨?_, ?_, ?_⟩ <;>
    norm_num [executeJob, h, h0, execSteps, writeJob, addLog, setLast, initialJob]

/-- Worker run for `full_etl` when all three steps succeed. -/
lemma exec_shape_full_ok3 (name ty : String) (work : ℕ → StepOutcome)
    (logOk : ℕ → Bool) (p0 f0 p1 f1 p2 f2 : ℕ)
    (h : deriveSteps ty =
      [("Extract Data", "extract", 1), ("Transform Data", "transform", 2),
       ("Load Data", "load", 3)])
    (h0 : work 0 = StepOutcome.ok p0 f0) (h1 : work 1 = StepOutcome.ok p1 f1)
    (h2 : work 2 = StepOutcome.ok p2 f2) :
    (executeJob name ty work logOk).job =
      { job_name := name, job_type := ty, status := "completed",
        progress := some 100, records_processed := p0 + p1 + p2,
        records_failed := f0 + f1 + f2, error_message := none,
        end_time_set := true } ∧
    (executeJob name ty work logOk).steps =
      [{ step_name := "Extract Data", step_type := "extract", step_order := 1,
         status := "completed", records_processed := p0, records_failed := f0,
         end_time_set := true },
       { step_name := "Transform Data", step_type := "transform", step_order := 2,
         status := "completed", records_processed := p1, records_failed := f1,
         end_time_set := true },
       { step_name := "Load Data", step_type := "load", step_order := 3,
         status := "completed", records_processed := p2, records_failed := f2,
         end_time_set := true }] ∧
    (executeJob name ty work logOk).jobTrace =
      [{ job_name := name, job_type := ty, status := "queued",
         progress := some 0, records_processed := 0, records_failed := 0,
         error_message := none, end_time_set := false },
       { job_name := name, job_type := ty, status := "running",
         progress := some 0, records_processed := 0, records_failed := 0,
         error_message := none, end_time_set := false },
       { job_name := name, job_type := ty, status := "running",
         progress := some (100 / 3), records_processed := p0, records_failed := f0,
         error_message := none, end_time_set := false },
       { job_name := name, job_type := ty, status := "running",
         progress := some (200 / 3), records_processed := p0 + p1,
         records_failed := f0 + f1, error_message := none, end_time_set := false },
       { job_name := name, job_type := ty, status := "running",
         progress := some 100, records_processed := p0 + p1 + p2,
         records_failed := f0 + f1 + f2, error_message := none,
         end_time_set := false },
       { job_name := name, job_type := ty, status := "completed",
         progress := some 100, records_processed := p0 + p1 + p2,
         records_failed := f0 + f1 + f2, error_message := none,
         end_time_set := true }] := by
  refine ⟨?_, ?_, ?_⟩ <;>
    norm_num [executeJob, h, h0, h1, h2, execSteps, writeJob, addLog, setLast,
      initialJob]

/-- Worker run for `full_etl` when the extract step raises. -/
lemma exec_shape_full_fail0 (name ty : String) (work : ℕ → StepOutcome)
    (logOk : ℕ → Bool) (msg : String)
    (h : deriveSteps ty =
      [("Extract Data", "extract", 1), ("Transform Data", "transform", 2),
       ("Load Data", "load", 3)])
    (h0 : work 0 = StepOutcome.fail msg) :
    (executeJob name ty work logOk).job =
      { job_name := name, job_type := ty, status := "error",
        progress := none, records_processed := 0, records_failed := 0,
        error_message := none, end_time_set := true } ∧
    (executeJob name ty work logOk).steps =
      [{ step_name := "Extract Data", step_type := "extract", step_order := 1,
         status := "error", records_processed := 0, records_failed := 0,
         end_time_set := true }] ∧
    (executeJob name ty work logOk).jobTrace =
      [{ job_name := name, job_type := ty, status := "queued",
         progress := some 0, records_processed := 0, records_failed := 0,
         error_message := none, end_time_set := false },
       { job_name := name, job_type := ty, status := "running",
         progress := some 0, records_processed := 0, records_failed := 0,
         error_message := none, end_time_set := false },
       { job_name := name, job_type := ty, status := "error",
         progress := none, records_processed := 0, records_failed := 0,
         error_message := none, end_time_set := true }] := by
  refine ⟨?_, ?_, ?_⟩ <;>
    norm_num [executeJob, h, h0, execSteps, writeJob, addLog, setLast, initialJob]

/-- Worker run for `full_etl` when extract succeeds and transform raises:
the load step is never inserted. -/
lemma exec_shape_full_fail1 (name ty : String) (work : ℕ → StepOutcome)
    (logOk : ℕ → Bool) (p0 f0 : ℕ) (msg : String)
    (h : deriveSteps ty =
      [("Extract Data", "extract", 1), ("Transform Data", "transform", 2),
       ("Load Data", "load", 3)])
    (h0 : work 0 = StepOutcome.ok p0 f0) (h1 : work 1 = StepOutcome.fail msg) :
    (executeJob name ty work logOk).job =
      { job_name := name, job_type := ty, status := "error",
        progress := none, records_processed := p0, records_failed := f0,
        error_message := none, end_time_set := true } ∧
    (executeJob name ty work logOk).steps =
      [{ step_name := "Extract Data", step_type := "extract", step_order := 1,
         status := "completed", records_processed := p0, records_failed := f0,
         end_time_set := true },
       { step_name := "Transform Data", step_type := "transform", step_order := 2,
         status := "error", records_processed := 0, records_failed := 0,
         end_time_set := true }] ∧
    (executeJob name ty work logOk).jobTrace =
      [{ job_name := name, job_type := ty, status := "queued",
         progress := some 0, records_processed := 0, records_failed := 0,
         error_message := none, end_time_set := false },
       { job_name := name, job_type := ty, status := "running",
         progress := some 0, records_processed := 0, records_failed := 0,
         error_message := none, end_time_set := false },
       { job_name := name, job_type := ty, status := "running",
         progress := some (100 / 3), records_processed := p0, records_failed := f0,
         error_message := none, end_time_set := false },
       { job_name := name, job_type := ty, status := "error",
         progress := none, records_processed := p0, records_failed := f0,
         error_message := none, end_time_set := true }] := by
  refine ⟨?_, ?_, ?_⟩ <;>
    norm_num [executeJob, h, h0, h1, execSteps, writeJob, addLog, setLast,
      initialJob]

/-- Worker run for `full_etl` when extract and transform succeed and load
raises. -/
lemma exec_shape_full_fail2 (name ty : String) (work : ℕ → StepOutcome)
    (logOk : ℕ → Bool) (p0 f0 p1 f1 : ℕ) (msg : String)
    (h : deriveSteps ty =
      [("Extract Data", "extract", 1), ("Transform Data", "transform", 2),
       ("Load Data", "load", 3)])
    (h0 : work 0 = StepOutcome.ok p0 f0) (h1 : work 1 = StepOutcome.ok p1 f1)
    (h2 : work 2 = StepOutcome.fail msg) :
    (executeJob name ty work logOk).job =
      { job_name := name, job_type := ty, status := "error",
        progress := none, records_processed := p0 + p1, records_failed := f0 + f1,
        error_message := none, end_time_set := true } ∧
    (executeJob name ty work logOk).steps =
      [{ step_name := "Extract Data", step_type := "extract", step_order := 1,
         status := "completed", records_processed := p0, records_failed := f0,
         end_time_set := true },
       { step_name := "Transform Data", step_type := "transform", step_order := 2,
         status := "completed", records_processed := p1, records_failed := f1,
         end_time_set := true },
       { step_name := "Load Data", step_type := "load", step_order := 3,
         status := "error", records_processed := 0, records_failed := 0,
         end_time_set := true }] ∧
    (executeJob name ty work logOk).jobTrace =
      [{ job_name := name, job_type := ty, status := "queued",
         progress := some 0, records_processed := 0, records_failed := 0,
         error_message := none, end_time_set := false },
       { job_name := name, job_type := ty, status := "running",
         progress := some 0, records_processed := 0, records_failed := 0,
         error_message := none, end_time_set := false },
       { job_name := name, job_type := ty, status := "running",
         progress := some (100 / 3), records_processed := p0, records_failed := f0,
         error_message := none, end_time_set := false },
       { job_name := name, job_type := ty, status := "running",
         progress := some (200 / 3), records_processed := p0 + p1,
         records_failed := f0 + f1, error_message := none, end_time_set := false },
       { job_name := name, job_type := ty, status := "error",
         progress := none, records_processed := p0 + p1, records_failed := f0 + f1,
         error_message := none, end_time_set := true }] := by
  refine ⟨?_, ?_, ?_⟩ <;>
    norm_num [executeJob, h, h0, h1, h2, execSteps, writeJob, addLog, setLast,
      initialJob]

/-- C1 counterexample: "bogus" is not one of the four job types, yet
`submit_job` writes a queued row for it and reports success — the claimed
synchronous validation rejection does not exist in the code. -/
theorem c1_counterexample :
    "bogus" ∉ validJobTypes ∧
    (submitJob "Job X" "bogus" []).1 = [initialJob "Job X" "bogus"] ∧
    (submitJob "Job X" "bogus" []).2.success = true := by
  refine ⟨by decide, rfl, rfl⟩

/-- C1 (amended): `submit_job` performs no job-type validation at all —
for every name and type, known or unknown, it inserts exactly one new
`etl_jobs` row with status "queued" and returns success. -/
theorem c1_amended (name ty : String) (jobs : List JobRow) :
    (submitJob name ty jobs).1 = jobs ++ [initialJob name ty] ∧
    (submitJob name ty jobs).2.success = true ∧
    (initialJob name ty).status = "queued" :=
  ⟨rfl, rfl, rfl⟩

/-- C2 counterexample: a `full_etl` job whose transform step fails ends
with status "error" and no load step, but its `error_message` is NULL —
the step-failure path of `_execute_job` never writes the job's
`error_message`, contradicting the claim that it is non-empty. -/
theorem c2_counterexample :
    ((executeJob "J" "full_etl" sampleWorkFailSecond (fun _ => true)).job.status
       = "error") ∧
    ((executeJob "J" "full_etl" sampleWorkFailSecond (fun _ => true)).job.error_message
       = none) ∧
    ((executeJob "J" "full_etl" sampleWorkFailSecond (fun _ => true)).steps.map
       (fun s => (s.step_type, s.status))
       = [("extract", "completed"), ("transform", "error")]) := by
  refine ⟨by decide, by decide, by decide⟩

/-- C2 (amended): submitting `full_etl` creates the three steps in order
(extract, transform, load) when the steps succeed; if the transform step
fails, the load step is never created and the job's final status is
"error", but `error_message` remains NULL — only the job-level exception
handler ever sets it, not the step-failure path. -/
theorem c2_amended (name : String) (work : ℕ → StepOutcome) (logOk : ℕ → Bool) :
    (∀ p0 f0 p1 f1 p2 f2, work 0 = StepOutcome.ok p0 f0 →
      work 1 = StepOutcome.ok p1 f1 → work 2 = StepOutcome.ok p2 f2 →
      (executeJob name "full_etl" work logOk).steps.map
        (fun s => (s.step_name, s.step_type, s.step_order)) =
        [("Extract Data", "extract", 1), ("Transform Data", "transform", 2),
         ("Load Data", "load", 3)]) ∧
    (∀ p0 f0 msg, work 0 = StepOutcome.ok p0 f0 → work 1 = StepOutcome.fail msg →
      ((executeJob name "full_etl" work logOk).steps.map
         (fun s => (s.step_type, s.status)) =
         [("extract", "completed"), ("transform", "error")]) ∧
      (executeJob name "full_etl" work logOk).job.status = "error" ∧
      (executeJob name "full_etl" work logOk).job.error_message = none ∧
      (executeJob name "full_etl" work logOk).job.end_time_set = true) := by
  constructor
  · intro p0 f0 p1 f1 p2 f2 h0 h1 h2
    obtain ⟨-, hsteps, -⟩ :=
      exec_shape_full_ok3 name "full_etl" work logOk p0 f0 p1 f1 p2 f2 rfl h0 h1 h2
    simp [hsteps]
  · intro p0 f0 msg h0 h1
    obtain ⟨hjob, hsteps, -⟩ :=
      exec_shape_full_fail1 name "full_etl" work logOk p0 f0 msg rfl h0 h1
    simp [hjob, hsteps]

/-- C2 witness: the amended theorem applied to a concrete worker whose
second step fails. -/
theorem c2_amended_witness :
    (executeJob "J" "full_etl" sampleWorkFailSecond (fun _ => true)).job.status
      = "error" :=
  (((c2_amended "J" sampleWorkFailSecond (fun _ => true)).2 7 1 "x"
    (by decide) (by decide)).2).1

/-- C9: for a job type outside the four constants, `_execute_job` derives
an empty step list, inserts no step rows, and finishes the job completed
with progress 100 and zero record counts. -/
theorem c9_unknown_type (name ty : String) (work : ℕ → StepOutcome)
    (logOk : ℕ → Bool) (h : ty ∉ validJobTypes) :
    deriveSteps ty = [] ∧
    (executeJob name ty work logOk).steps = [] ∧
    (executeJob name ty work logOk).job.status = "completed" ∧
    (executeJob name ty work logOk).job.progress = some 100 ∧
    (executeJob name ty work logOk).job.records_processed = 0 ∧
    (executeJob name ty work logOk).job.records_failed = 0 := by
  have hd := deriveSteps_of_unknown ty h
  obtain ⟨hjob, hsteps, -⟩ := exec_shape_empty name ty work logOk hd
  exact ⟨hd, hsteps, by simp [hjob], by simp [hjob], by simp [hjob], by simp [hjob]⟩

/-- C9 witness: the theorem applied to the unknown type "bogus". -/
theorem c9_unknown_type_witness :
    deriveSteps "bogus" = [] ∧
    (executeJob "J" "bogus" (fun _ => StepOutcome.ok 1 0) (fun _ => true)).steps = [] ∧
    (executeJob "J" "bogus" (fun _ => StepOutcome.ok 1 0) (fun _ => true)).job.status
      = "completed" ∧
    (executeJob "J" "bogus" (fun _ => StepOutcome.ok 1 0) (fun _ => true)).job.progress
      = some 100 ∧
    (executeJob "J" "bogus" (fun _ => StepOutcome.ok 1 0)
      (fun _ => true)).job.records_processed = 0 ∧
    (executeJob "J" "bogus" (fun _ => StepOutcome.ok 1 0)
      (fun _ => true)).job.records_failed = 0 :=
  c9_unknown_type "J" "bogus" (fun _ => StepOutcome.ok 1 0) (fun _ => true)
    (by decide)

/-- C4 counterexample: in a successful `full_etl` run there is a write
with `progress_percentage = 100` while the status is still "running" (the
third step's progress update precedes the final status update), so
"progress equals 100 iff status is completed" fails over the sequence of
writes. -/
theorem c4_counterexample :
    ((executeJob "J" "full_etl" (fun _ => StepOutcome.ok 10 0)
        (fun _ => true)).jobTrace.map (fun j => (j.status, j.progress)) =
      [("queued", some 0), ("running", some 0), ("running", some (100 / 3)),
       ("running", some (200 / 3)), ("running", some (100 : ℚ)),
       ("completed", some 100)]) ∧
    ("running" : String) ≠ "completed" := by
  obtain ⟨-, -, ht⟩ :=
    exec_shape_full_ok3 "J" "full_etl" (fun _ => StepOutcome.ok 10 0)
      (fun _ => true) 10 0 10 0 10 0 rfl rfl rfl rfl
  rw [ht]
  exact ⟨by simp, by decide⟩

/-- C4 (amended): over the worker's writes, the numeric values of
`progress_percentage` are monotonically non-decreasing (the error-path
final update clears the column to NULL rather than writing a number), and
in the final job row progress equals 100 iff the status is "completed";
transiently progress reaches 100 while the status is still "running". -/
theorem c4_amended (name ty : String) (work : ℕ → StepOutcome)
    (logOk : ℕ → Bool) :
    List.Chain' (fun a b => a ≤ b)
      ((executeJob name ty work logOk).jobTrace.filterMap (fun j => j.progress)) ∧
    ((executeJob name ty work logOk).job.progress = some 100 ↔
      (executeJob name ty work logOk).job.status = "completed") := by
  rcases deriveSteps_cases ty with h | ⟨nm, st, h⟩ | h
  · rcases hw0 : work 0 with ⟨p0, f0⟩ | m0
    · rcases hw1 : work 1 with ⟨p1, f1⟩ | m1
      · rcases hw2 : work 2 with ⟨p2, f2⟩ | m2
        · obtain ⟨hj, -, ht⟩ :=
            exec_shape_full_ok3 name ty work logOk p0 f0 p1 f1 p2 f2 h hw0 hw1 hw2
          rw [hj, ht]
          constructor
          · norm_num [List.filterMap_cons, List.chain'_cons]
          · simp
        · obtain ⟨hj, -, ht⟩ :=
            exec_shape_full_fail2 name ty work logOk p0 f0 p1 f1 m2 h hw0 hw1 hw2
          rw [hj, ht]
          constructor
          · norm_num [List.filterMap_cons, List.chain'_cons]
          · simp
      · obtain ⟨hj, -, ht⟩ :=
          exec_shape_full_fail1 name ty work logOk p0 f0 m1 h hw0 hw1
        rw [hj, ht]
        constructor
        · norm_num [List.filterMap_cons, List.chain'_cons]
        · simp
    · obtain ⟨hj, -, ht⟩ := exec_shape_full_fail0 name ty work logOk m0 h hw0
      rw [hj, ht]
      constructor
      · norm_num [List.filterMap_cons, List.chain'_cons]
      · simp
  · rcases hw0 : work 0 with ⟨p0, f0⟩ | m0
    · obtain ⟨hj, -, ht⟩ :=
        exec_shape_single_ok name ty nm st work logOk p0 f0 h hw0
      rw [hj, ht]
      constructor
      · norm_num [List.filterMap_cons, List.chain'_cons]
      · simp
    · obtain ⟨hj, -, ht⟩ :=
        exec_shape_single_fail name ty nm st work logOk m0 h hw0
      rw [hj, ht]
      constructor
      · norm_num [List.filterMap_cons, List.chain'_cons]
      · simp
  · obtain ⟨hj, -, ht⟩ := exec_shape_empty name ty work logOk h
    rw [hj, ht]
    constructor
    · norm_num [List.filterMap_cons, List.chain'_cons]
    · simp

/-- C5 counterexample: `update_job_status` performs no transition check,
so a cancel request arriving after a job completed moves it from the
terminal status "completed" to the terminal status "cancelled" — an
interleaving of worker writes and an external request that leaves the job
observed in two terminal states. -/
theorem c5_counterexample :
    ((executeJob "J" "extract" (fun _ => StepOutcome.ok 10 2)
        (fun _ => true)).job.status = "completed") ∧
    isTerminal "completed" = true ∧ isTerminal "cancelled" = true ∧
    allowedTransition "completed" "cancelled" = false ∧
    ((updateJobStatus true
        (some (executeJob "J" "extract" (fun _ => StepOutcome.ok 10 2)
          (fun _ => true)).job) [] "cancelled").1.map (fun r => r.status)
      = some "cancelled") ∧
    ((updateJobStatus true
        (some (executeJob "J" "extract" (fun _ => StepOutcome.ok 10 2)
          (fun _ => true)).job) [] "cancelled").2.2 = true) := by
  refine ⟨by decide, by decide, by decide, by decide, by decide, by decide⟩

/-- C5 (amended): the worker's own writes follow only
queued → running → (completed | error); but `update_job_status` writes any
requested status unconditionally (returning success whenever the job
exists), so external cancel/status requests can produce transitions
outside the claimed relation, including between terminal states. -/
theorem c5_amended :
    (∀ (name ty : String) (work : ℕ → StepOutcome) (logOk : ℕ → Bool),
      List.Chain' (fun a b => allowedTransition a b = true)
        (collapseAdj
          ((executeJob name ty work logOk).jobTrace.map (fun j => j.status)))) ∧
    (∀ (logOk : Bool) (j : JobRow) (logs : List LogEntry) (status : String),
      ((updateJobStatus logOk (some j) logs status).1.map (fun r => r.status))
        = some status ∧
      (updateJobStatus logOk (some j) logs status).2.2 = true) := by
  constructor
  · intro name ty work logOk
    rcases deriveSteps_cases ty with h | ⟨nm, st, h⟩ | h
    · rcases hw0 : work 0 with ⟨p0, f0⟩ | m0
      · rcases hw1 : work 1 with ⟨p1, f1⟩ | m1
        · rcases hw2 : work 2 with ⟨p2, f2⟩ | m2
          · obtain ⟨-, -, ht⟩ :=
              exec_shape_full_ok3 name ty work logOk p0 f0 p1 f1 p2 f2 h hw0 hw1 hw2
            rw [ht]; simp [collapseAdj, collapseFrom, List.chain'_cons, allowedTransition]
          · obtain ⟨-, -, ht⟩ :=
              exec_shape_full_fail2 name ty work logOk p0 f0 p1 f1 m2 h hw0 hw1 hw2
            rw [ht]; simp [collapseAdj, collapseFrom, List.chain'_cons, allowedTransition]
        · obtain ⟨-, -, ht⟩ :=
            exec_shape_full_fail1 name ty work logOk p0 f0 m1 h hw0 hw1
          rw [ht]; simp [collapseAdj, collapseFrom, List.chain'_cons, allowedTransition]
      · obtain ⟨-, -, ht⟩ := exec_shape_full_fail0 name ty work logOk m0 h hw0
        rw [ht]; simp [collapseAdj, collapseFrom, List.chain'_cons, allowedTransition]
    · rcases hw0 : work 0 with ⟨p0, f0⟩ | m0
      · obtain ⟨-, -, ht⟩ :=
          exec_shape_single_ok name ty nm st work logOk p0 f0 h hw0
        rw [ht]; simp [collapseAdj, collapseFrom, List.chain'_cons, allowedTransition]
      · obtain ⟨-, -, ht⟩ :=
          exec_shape_single_fail name ty nm st work logOk m0 h hw0
        rw [ht]; simp [collapseAdj, collapseFrom, List.chain'_cons, allowedTransition]
    · obtain ⟨-, -, ht⟩ := exec_shape_empty name ty work logOk h
      rw [ht]; simp [collapseAdj, collapseFrom, List.chain'_cons, allowedTransition]
  · intro logOk j logs status
    constructor
    · simp only [updateJobStatus]
      split_ifs <;> simp
    · simp only [updateJobStatus]

/-- C6: whichever job type and step outcomes, a worker run ends in status
"completed" or "error", and the job-level record counts written by the
final update equal the sums of the corresponding per-step values across
the job's step rows (an errored step row keeps its 0 defaults and
contributes nothing, exactly like the job-level totals). -/
theorem c6_records_sums (name ty : String) (work : ℕ → StepOutcome)
    (logOk : ℕ → Bool) :
    ((executeJob name ty work logOk).job.status = "completed" ∨
     (executeJob name ty work logOk).job.status = "error") ∧
    (executeJob name ty work logOk).job.records_processed =
      ((executeJob name ty work logOk).steps.map
        (fun s => s.records_processed)).sum ∧
    (executeJob name ty work logOk).job.records_failed =
      ((executeJob name ty work logOk).steps.map (fun s => s.records_failed)).sum := by
  rcases deriveSteps_cases ty with h | ⟨nm, st, h⟩ | h
  · rcases hw0 : work 0 with ⟨p0, f0⟩ | m0
    · rcases hw1 : work 1 with ⟨p1, f1⟩ | m1
      · rcases hw2 : work 2 with ⟨p2, f2⟩ | m2
        · obtain ⟨hj, hs, -⟩ :=
            exec_shape_full_ok3 name ty work logOk p0 f0 p1 f1 p2 f2 h hw0 hw1 hw2
          rw [hj, hs]
          refine ⟨Or.inl rfl, by simp [Nat.add_assoc], by simp [Nat.add_assoc]⟩
        · obtain ⟨hj, hs, -⟩ :=
            exec_shape_full_fail2 name ty work logOk p0 f0 p1 f1 m2 h hw0 hw1 hw2
          rw [hj, hs]
          refine ⟨Or.inr rfl, by simp [Nat.add_assoc], by simp [Nat.add_assoc]⟩
      · obtain ⟨hj, hs, -⟩ :=
          exec_shape_full_fail1 name ty work logOk p0 f0 m1 h hw0 hw1
        rw [hj, hs]
        refine ⟨Or.inr rfl, by simp, by simp⟩
    · obtain ⟨hj, hs, -⟩ := exec_shape_full_fail0 name ty work logOk m0 h hw0
      rw [hj, hs]
      refine ⟨Or.inr rfl, by simp, by simp⟩
  · rcases hw0 : work 0 with ⟨p0, f0⟩ | m0
    · obtain ⟨hj, hs, -⟩ :=
        exec_shape_single_ok name ty nm st work logOk p0 f0 h hw0
      rw [hj, hs]
      refine ⟨Or.inl rfl, by simp, by simp⟩
    · obtain ⟨hj, hs, -⟩ :=
        exec_shape_single_fail name ty nm st work logOk m0 h hw0
      rw [hj, hs]
      refine ⟨Or.inr rfl, by simp, by simp⟩
  · obtain ⟨hj, hs, -⟩ := exec_shape_empty name ty work logOk h
    rw [hj, hs]
    refine ⟨Or.inl rfl, by simp, by simp⟩

/-- C10: `_add_job_log` never raises to its caller — its result in the
caller's exception monad is always a normal return — and the worker's job
row, step rows, and sequence of job-row writes are identical whatever
subset of its log inserts fail, so a log-write failure neither aborts the
worker nor alters the job/step state updates. -/
theorem c10_log_isolation :
    (∀ (ok : Bool) (logs : List LogEntry) (e : LogEntry),
      (addJobLogRun ok logs e).isOk = true) ∧
    (∀ (ok : Bool) (logs : List LogEntry) (e : LogEntry),
      ok = false → addJobLog ok logs e = logs) ∧
    (∀ (name ty : String) (work : ℕ → StepOutcome) (lo1 lo2 : ℕ → Bool),
      (executeJob name ty work lo1).job = (executeJob name ty work lo2).job ∧
      (executeJob name ty work lo1).steps = (executeJob name ty work lo2).steps ∧
      (executeJob name ty work lo1).jobTrace = (executeJob name ty work lo2).jobTrace) := by
  refine ⟨?_, ?_, ?_⟩
  · intro ok logs e
    cases ok <;> simp [addJobLogRun, logInsert, Except.isOk, Except.toBool]
  · intro ok logs e hok
    subst hok
    simp [addJobLog, logInsert]
  · intro name ty work lo1 lo2
    rcases deriveSteps_cases ty with h | ⟨nm, st, h⟩ | h
    · rcases hw0 : work 0 with ⟨p0, f0⟩ | m0
      · rcases hw1 : work 1 with ⟨p1, f1⟩ | m1
        · rcases hw2 : work 2 with ⟨p2, f2⟩ | m2
          · obtain ⟨aj, as', ht1⟩ :=
              exec_shape_full_ok3 name ty work lo1 p0 f0 p1 f1 p2 f2 h hw0 hw1 hw2
            obtain ⟨bj, bs, ht2⟩ :=
              exec_shape_full_ok3 name ty work lo2 p0 f0 p1 f1 p2 f2 h hw0 hw1 hw2
            exact ⟨aj.trans bj.symm, as'.trans bs.symm, ht1.trans ht2.symm⟩
          · obtain ⟨aj, as', ht1⟩ :=
              exec_shape_full_fail2 name ty work lo1 p0 f0 p1 f1 m2 h hw0 hw1 hw2
            obtain ⟨bj, bs, ht2⟩ :=
              exec_shape_full_fail2 name ty work lo2 p0 f0 p1 f1 m2 h hw0 hw1 hw2
            exact ⟨aj.trans bj.symm, as'.trans bs.symm, ht1.trans ht2.symm⟩
        · obtain ⟨aj, as', ht1⟩ :=
            exec_shape_full_fail1 name ty work lo1 p0 f0 m1 h hw0 hw1
          obtain ⟨bj, bs, ht2⟩ :=
            exec_shape_full_fail1 name ty work lo2 p0 f0 m1 h hw0 hw1
          exact ⟨aj.trans bj.symm, as'.trans bs.symm, ht1.trans ht2.symm⟩
      · obtain ⟨aj, as', ht1⟩ := exec_shape_full_fail0 name ty work lo1 m0 h hw0
        obtain ⟨bj, bs, ht2⟩ := exec_shape_full_fail0 name ty work lo2 m0 h hw0
        exact ⟨aj.trans bj.symm, as'.trans bs.symm, ht1.trans ht2.symm⟩
    · rcases hw0 : work 0 with ⟨p0, f0⟩ | m0
      · obtain ⟨aj, as', ht1⟩ :=
          exec_shape_single_ok name ty nm st work lo1 p0 f0 h hw0
        obtain ⟨bj, bs, ht2⟩ :=
          exec_shape_single_ok name ty nm st work lo2 p0 f0 h hw0
        exact ⟨aj.trans bj.symm, as'.trans bs.symm, ht1.trans ht2.symm⟩
      · obtain ⟨aj, as', ht1⟩ :=
          exec_shape_single_fail name ty nm st work lo1 m0 h hw0
        obtain ⟨bj, bs, ht2⟩ :=
          exec_shape_single_fail name ty nm st work lo2 m0 h hw0
        exact ⟨aj.trans bj.symm, as'.trans bs.symm, ht1.trans ht2.symm⟩
    · obtain ⟨aj, as', ht1⟩ := exec_shape_empty name ty work lo1 h
      obtain ⟨bj, bs, ht2⟩ := exec_shape_empty name ty work lo2 h
      exact ⟨aj.trans bj.symm, as'.trans bs.symm, ht1.trans ht2.symm⟩

/-- C3: croniter's next occurrence is strictly after the tick's time, so
the guard `next_run <= current_time` of `_process_scheduled_jobs` never
holds: an active every-minute schedule produces no submission on any
tick — in particular, two polls 61 seconds apart (one elapsed minute
boundary) produce zero submissions, not one. -/
theorem c3_scheduler_never_fires :
    (∀ t, t < cronNextEveryMinute t) ∧
    (∀ (s : ScheduledJob), s.is_active = true →
      s.cron_schedule = "* * * * *" →
      ∀ now, processScheduledJobs [s] now = []) ∧
    processScheduledJobs [sampleSchedule] 30 = [] ∧
    processScheduledJobs [sampleSchedule] 91 = [] := by
  refine ⟨?_, ?_, by decide, by decide⟩
  · intro t
    simp only [cronNextEveryMinute]
    omega
  · intro s hact hcron now
    have hneg : ¬ (cronNextEveryMinute now ≤ now) := by
      simp only [cronNextEveryMinute]
      omega
    simp [processScheduledJobs, hact, cronNext, hcron, hneg]

/-- C3 witness: the theorem applied to the concrete active every-minute
schedule at tick 30. -/
theorem c3_scheduler_never_fires_witness :
    processScheduledJobs [sampleSchedule] 30 = [] :=
  c3_scheduler_never_fires.2.1 sampleSchedule rfl rfl 30

/-- `get_job_statistics` on the unfiltered window over the store holding
only `sampleRowCompleted`. -/
lemma stats_of_sample :
    getJobStatistics none [sampleRowCompleted] = Except.ok sampleStats := by
  have hok : sqlOk (avgDurationQuery none) = true := by decide
  simp only [getJobStatistics, hok, if_true, Except.ok.injEq]
  simp [statusCounts, jobTypeCounts, completedDurations, timeDiff, avgOrZero,
    sampleRowCompleted, sampleStats]

/-- C7: the rate arithmetic of `get_job_statistics` is sound — on the
unfiltered window the reported success and failure rates sum to exactly
100 whenever total_records_processed > 0, and a zero-total window reports
both rates as 0 with no division — but for the periods today/week/month
the method fails outright: its `date_filter` starts with WHERE and is
appended to the average-duration query that already has a WHERE clause,
so the store rejects the malformed SQL and the call returns an error
instead of statistics. -/
theorem c7_rates_and_windows :
    (getJobStatistics (some "today") []).isOk = false ∧
    countWhere (avgDurationQuery (some "today")) = 2 ∧
    (∀ (rows : List DbJob) (s : Stats), getJobStatistics none rows = Except.ok s →
      (0 < s.total_records_processed → s.success_rate + s.failure_rate = 100) ∧
      (s.total_records_processed = 0 → s.success_rate = 0 ∧ s.failure_rate = 0)) ∧
    (getJobStatistics none []).isOk = true := by
  refine ⟨by decide, by decide, ?_, by decide⟩
  intro rows s h
  have hok : sqlOk (avgDurationQuery none) = true := by decide
  simp only [getJobStatistics, hok, if_true, Except.ok.injEq] at h
  subst h
  dsimp only
  constructor
  · intro hp
    rw [if_pos hp, if_pos hp]
    have key : ∀ (P F : ℚ), P ≠ 0 → (P - F) / P * 100 + F / P * 100 = 100 := by
      intro P F hP
      field_simp
      ring
    exact key _ _ (Nat.cast_ne_zero.mpr hp.ne')
  · intro h0
    rw [h0]
    norm_num

/-- C7 witness: the rate-sum part of the theorem applied to the concrete
one-row store, whose total of processed records is positive. -/
theorem c7_rates_and_windows_witness :
    sampleStats.success_rate + sampleStats.failure_rate = 100 :=
  (c7_rates_and_windows.2.2.1 [sampleRowCompleted] sampleStats
    stats_of_sample).1 (by decide)

/-- The average-duration query's row set equals a status filter followed by
the NULL-skipping of AVG. -/
lemma completedDurations_filter (rows : List DbJob) :
    completedDurations rows =
      (rows.filter (fun j => j.status == "completed")).filterMap timeDiff := by
  induction rows with
  | nil => rfl
  | cons j rest ih =>
    obtain ⟨st, jt, rp, rf, sta, en⟩ := j
    by_cases hs : st = "completed"
    · subst hs
      rcases sta with _ | s0 <;> rcases en with _ | e0 <;>
        simp [completedDurations, timeDiff, List.filter_cons,
          List.filterMap_cons] <;>
        simpa [completedDurations] using ih
    · simp only [completedDurations, List.filter_cons] at ih ⊢
      simp [hs, ih]

/-- C8 counterexample: with one completed job (duration 86400 s) and one
errored job with both timestamps set (duration 259200 s) in the store, the
reported average is 86400 — the average over completed jobs only — while
the average over all jobs with both timestamps set is 172800, so the
statistic is not computed regardless of status. -/
theorem c8_counterexample :
    ((getJobStatistics none [sampleRowCompleted, sampleRowError]).map
      (fun s => s.avg_processing_time_seconds) = Except.ok 86400) ∧
    specAvgDuration [sampleRowCompleted, sampleRowError] = 172800 ∧
    sampleRowError.start_time.isSome = true ∧
    sampleRowError.end_time.isSome = true ∧
    sampleRowError.status ≠ "completed" ∧
    (86400 : ℚ) ≠ 172800 := by
  have hok : sqlOk (avgDurationQuery none) = true := by decide
  refine ⟨?_, ?_, by decide, by decide, by decide, by norm_num⟩
  · simp only [getJobStatistics, hok, if_true, Except.map]
    simp [completedDurations, timeDiff, avgOrZero, sampleRowCompleted,
      sampleRowError]
  · simp [specAvgDuration, timeDiff, avgOrZero, sampleRowCompleted,
      sampleRowError]
    norm_num

/-- C8 (amended): for the unfiltered window, the average-duration
statistic is computed over exactly the jobs with status "completed" and
both timestamps set — jobs in other statuses are excluded even when both
their timestamps are set (and for the date-filtered windows the
statistics call fails outright, reporting nothing). -/
theorem c8_amended (rows : List DbJob) (s : Stats)
    (h : getJobStatistics none rows = Except.ok s) :
    s.avg_processing_time_seconds =
      specAvgDuration (rows.filter (fun j => j.status == "completed")) := by
  have hok : sqlOk (avgDurationQuery none) = true := by decide
  simp only [getJobStatistics, hok, if_true, Except.ok.injEq] at h
  subst h
  dsimp only
  rw [specAvgDuration, completedDurations_filter]

/-- C8 witness: the amended theorem applied to the one-row store. -/
theorem c8_amended_witness :
    sampleStats.avg_processing_time_seconds =
      specAvgDuration ([sampleRowCompleted].filter
        (fun j => j.status == "completed")) :=
  c8_amended [sampleRowCompleted] sampleStats stats_of_sample

/-- C10 witness: the failed-insert branch of the theorem applied to a
concrete failing log write. -/
theorem c10_log_isolation_witness :
    addJobLog false [] ⟨none, "INFO", "test entry"⟩ = [] :=
  c10_log_isolation.2.1 false [] ⟨none, "INFO", "test entry"⟩ rfl
